import Mathlib

/-!
Shallow embedding of the LemCom-API core (user records, disclosure
settings, the API-key authentication extractor, and the friend-request
handlers) together with theorems checking the specification's claims
against it.

Conventions of the embedding:
* Rust `u64` timestamps are modelled as `Nat` (the claims never exercise
  overflow; all arithmetic on them is comparison and division).
* `HashMap<String, u64>` fields are modelled as association lists with
  HashMap semantics (insert replaces, remove deletes the key).
* Mongo collections are modelled as lists of documents; `update_one` with
  `upsert` replaces the first document matching the filter or appends.
* Fallible storage operations take explicit failure flags; a failed write
  leaves the collection unchanged and the handler returns the 500 branch,
  exactly as in the Rust code where the error is returned before any
  further effect.
-/

/-- Association-list membership test, mirroring `HashMap::contains_key`. -/
def containsKey (m : List (String × Nat)) (k : String) : Bool :=
  m.any (fun p => p.1 == k)

/-- Association-list insertion, mirroring `HashMap::insert` (replaces an
existing entry for the key, otherwise appends). -/
def insertKV (m : List (String × Nat)) (k : String) (v : Nat) : List (String × Nat) :=
  if containsKey m k then m.map (fun p => if p.1 == k then (k, v) else p)
  else m ++ [(k, v)]

/-- Association-list removal, mirroring `HashMap::remove`. -/
def removeKey (m : List (String × Nat)) (k : String) : List (String × Nat) :=
  m.filter (fun p => p.1 != k)

/-- Modelled from the spec: `PermissionLevel` (src/src/models/enums.rs is
absent from src/) — one of Regular, Elevated, Admin; default Regular. -/
inductive PermissionLevel where
  | Regular
  | Elevated
  | Admin
deriving DecidableEq, Repr

instance : Inhabited PermissionLevel := ⟨PermissionLevel.Regular⟩

/-- Modelled from the spec: `DisclosureLevel` (the enum used by
`UserSettings.show_join_date` etc. is absent from src/; only its caller
`User::public_information` is present) — Private, FriendsOnly or Public. -/
inductive DisclosureLevel where
  | Private
  | FriendsOnly
  | Public
deriving DecidableEq, Repr

/-- Modelled from the spec: `DisclosureLevel::is_visible(viewer_is_friend)`
— Private → false; FriendsOnly → `viewer_is_friend`; Public → true. -/
def DisclosureLevel.is_visible (l : DisclosureLevel) (viewer_is_friend : Bool) : Bool :=
  match l with
  | .Private => false
  | .FriendsOnly => viewer_is_friend
  | .Public => true

/-- Modelled from the spec: the `UserSettings` record that `user.rs` and
`friend.rs` actually reference (fields `show_join_date`, `show_online_date`,
`show_profile`, `allow_friend_requests`) is absent from src/ — the
`user_settings.rs` present there is an older two-boolean version that does
not define these fields. This record follows the spec's data model. -/
structure UserSettingsSpec where
  show_join_date : DisclosureLevel
  show_online_date : DisclosureLevel
  show_profile : DisclosureLevel
  allow_friend_requests : Bool
deriving DecidableEq, Repr

/-- Modelled from the spec: a formatted date. `time_operations::nanos_to_date`
is absent from src/; it renders nanoseconds-since-epoch as a UTC date
string. The claims depend only on which timestamp is rendered and whether a
date is present at all, so the date is modelled as a wrapper carrying the
nanosecond value it was produced from. -/
structure Date where
  nanos : Nat
deriving DecidableEq, Repr

/-- Modelled from the spec: `time_operations::nanos_to_date`. -/
def nanos_to_date (nanos : Nat) : Date := ⟨nanos⟩

/-- `time_operations::timestamp_now_nanos`: the ambient clock `now` is taken
in nanoseconds since epoch. -/
def timestamp_now_nanos (now : Nat) : Nat := now

/-- Modelled from the spec: `time_operations::timestamp_now_micro` is absent
from src/; per the spec it is the same wall clock read at microsecond
precision, i.e. the nanosecond reading divided by 1000. -/
def timestamp_now_micro (now : Nat) : Nat := now / 1000

/-- The `User` document of src/src/models/user.rs. The `friend_requests`
field is modelled from the spec (the `User` struct in the snapshot predates
it, while its caller `friend.rs` reads and writes it): a map from sender key
to request timestamp in nanoseconds. -/
structure User where
  key : String
  name : String
  display_name : String
  created_stamp : Nat
  last_access_stamp : Nat
  endpoint_usage : List (String × Nat)
  settings : UserSettingsSpec
  permission_level : PermissionLevel
  friend_requests : List (String × Nat)
deriving DecidableEq, Repr

/-- `UserPrivateInformation` (response_models.rs is absent from src/, but
`User::private_information` constructs it with an exhaustive struct literal,
which fixes its fields exactly). -/
structure UserPrivateInformation where
  name : String
  display_name : String
  joined_date : Date
  last_online_date : Date
  total_request_count : Nat
  permission_level : PermissionLevel
deriving DecidableEq, Repr

/-- `UserPublicInformation` (fields fixed by the exhaustive struct literal
in `User::public_information`). -/
structure UserPublicInformation where
  name : String
  display_name : String
  joined_date : Option Date
  last_online_date : Option Date
  permission_level : PermissionLevel
deriving DecidableEq, Repr

/-- `User::request_count`: sum of all `endpoint_usage` values. -/
def User.request_count (u : User) : Nat :=
  (u.endpoint_usage.map (fun p => p.2)).sum

/-- `User::private_information` from src/src/models/user.rs. -/
def User.private_information (u : User) : UserPrivateInformation :=
  { name := u.name
    display_name := u.display_name
    joined_date := nanos_to_date u.created_stamp
    last_online_date := nanos_to_date u.last_access_stamp
    total_request_count := u.request_count
    permission_level := u.permission_level }

/-- `User::public_information` from src/src/models/user.rs. -/
def User.public_information (u : User) (is_friend : Bool) : UserPublicInformation :=
  let joined_date :=
    if u.settings.show_join_date.is_visible is_friend then
      some (nanos_to_date u.created_stamp)
    else none
  let last_online_date :=
    if u.settings.show_online_date.is_visible is_friend then
      some (nanos_to_date u.last_access_stamp)
    else none
  { name := u.name
    display_name := u.display_name
    joined_date := joined_date
    last_online_date := last_online_date
    permission_level := u.permission_level }

/-- `find_user_by_key` from src/src/models/user.rs: first document whose
`key` equals the given key. -/
def find_user_by_key (users : List User) (key : String) : Option User :=
  users.find? (fun u => u.key == key)

/-- ASCII lowercasing, mirroring `str::to_lowercase` on the ASCII handles
this API deals in (handles are sanitized to ASCII alphanumeric before any
lookup). -/
def lowerString (s : String) : String :=
  String.mk (s.data.map Char.toLower)

/-- `find_user_by_name` from src/src/models/user.rs: lowercases the input,
then first document whose `name` matches exactly. -/
def find_user_by_name (users : List User) (name : String) : Option User :=
  users.find? (fun u => u.name == lowerString name)

/-- `User::save` from src/src/models/user.rs: `update_one` with filter
`key == self.key` and upsert — replaces the first document with the same
key, or appends. -/
def upsertByKey : List User → User → List User
  | [], u => [u]
  | v :: vs, u => if v.key == u.key then u :: vs else v :: upsertByKey vs u

/-- `alphanumeric` from src/src/utils/sanitize.rs: keep only ASCII
alphanumeric characters. -/
def alphanumeric (input : String) : String :=
  String.mk (input.data.filter (fun c => c.isAlphanum))

/-- A byte admissible in `HeaderValue::to_str` of the `http` crate (an
external collaborator of the extractor): visible ASCII or horizontal tab. -/
def isVisibleAscii (b : Nat) : Bool :=
  (32 ≤ b && b < 127) || b == 9

/-- `HeaderValue::to_str` (the `http` crate, external collaborator): yields
the header value as a string when every byte is visible ASCII, else fails. -/
def headerValueToStr (bs : List Nat) : Option String :=
  if bs.all isVisibleAscii then some (String.mk (bs.map Char.ofNat)) else none

/-- The authentication extractor `from_request_parts` of
src/src/security/authentication.rs. Inputs: the raw bytes of the
`x-api-key` header (if present), the user collection, failure flags for the
two storage operations, and the ambient clock in nanoseconds. Output:
either a rejection `(status, message)` or the authenticated user together
with the user collection as persisted before the handler runs. -/
def from_request_parts (header : Option (List Nat)) (users : List User)
    (lookupFail saveFail : Bool) (now : Nat) :
    Except (Nat × String) (User × List User) :=
  match header with
  | none => .error (400, "API key header is missing")
  | some bs =>
    match headerValueToStr bs with
    | none => .error (400, "Invalid API key format")
    | some apiKey =>
      if lookupFail then
        .error (500, "An error occured while trying to fetch user")
      else
        match find_user_by_key users apiKey with
        | none => .error (401, "Invalid API key")
        | some u =>
          let u1 : User := { u with last_access_stamp := timestamp_now_micro now }
          if saveFail then
            .error (500, "An error occured while trying to save user")
          else
            .ok (u1, upsertByKey users u1)

/-- Modelled from the spec: the `Friendship` document
(src/src/models/friendship.rs is absent from src/; only its callers in
friend.rs are present) — an unordered member pair plus creation stamp. -/
structure Friendship where
  members : List String
  created_stamp : Nat
deriving DecidableEq, Repr

/-- Two key lists denote the same set. -/
def sameKeySet (a b : List String) : Bool :=
  a.all (fun k => b.contains k) && b.all (fun k => a.contains k)

/-- Modelled from the spec: `Friendship::new(keys)` normalises the two-key
set and stamps `created_stamp`. -/
def Friendship.new (keys : List String) (now : Nat) : Friendship :=
  { members := keys.dedup, created_stamp := timestamp_now_nanos now }

/-- Modelled from the spec: `are_friends(store, keys)` — true iff a
friendship exists whose member set equals the given set. -/
def are_friends (friendships : List Friendship) (keys : List String) : Bool :=
  friendships.any (fun f => sameKeySet f.members keys)

/-- Modelled from the spec: `Friendship::save` upserts by the unordered
pair (idempotent) — replaces the first friendship with the same member set,
or appends. -/
def saveFriendship : List Friendship → Friendship → List Friendship
  | [], f => [f]
  | g :: gs, f => if sameKeySet g.members f.members then f :: gs else g :: saveFriendship gs f

/-- The two shared mutable collections. -/
structure Db where
  users : List User
  friendships : List Friendship
deriving DecidableEq, Repr

/-- The HTTP response a friend handler builds: status code and body text. -/
structure HResponse where
  status : Nat
  body : String
deriving DecidableEq, Repr

/-- Failure flags for the storage operations of `post_friend_request`, in
the order the handler performs them. -/
structure SendIo where
  findUserFail : Bool
  areFriendsFail : Bool
  saveTargetFail : Bool
deriving DecidableEq, Repr

/-- Modelled from the spec: `UserName::sanitize` (query_models.rs is absent
from src/) applies the ASCII-alphanumeric filter to the `name` query
parameter. -/
def sanitizeUserName (name : String) : String := alphanumeric name

/-- `post_friend_request` of src/src/resources/friend.rs: sends a friend
request from the authenticated `user` to the user named by the sanitized
query. Returns the response and the resulting database state. -/
def post_friend_request (db : Db) (user : User) (qname : String) (now : Nat)
    (io : SendIo) : HResponse × Db :=
  let name := sanitizeUserName qname
  if io.findUserFail then
    (⟨500, "An error occurred while fetching user"⟩, db)
  else
    match find_user_by_name db.users name with
    | none => (⟨404, "User not found or user does not allow friend requests"⟩, db)
    | some target =>
      if target.key == user.key then
        (⟨400, "Can\x27t send a friend request to yourself"⟩, db)
      else if !target.settings.allow_friend_requests then
        (⟨404, "User not found or user does not allow friend requests"⟩, db)
      else if io.areFriendsFail then
        (⟨500, "An error occurred while fetching friendship"⟩, db)
      else if are_friends db.friendships [user.key, target.key] then
        (⟨400, "You are already friends with the user"⟩, db)
      else if containsKey target.friend_requests user.key then
        (⟨400, "Already sent a request to the user"⟩, db)
      else
        let target1 : User :=
          { target with friend_requests := insertKV target.friend_requests user.key (timestamp_now_nanos now) }
        if io.saveTargetFail then
          (⟨500, "An error occured while saving the target user"⟩, db)
        else
          (⟨200, "Friend request sent"⟩, { db with users := upsertByKey db.users target1 })

/-- Failure flags for the storage operations of
`post_friend_request_accept`, in the order the handler performs them. -/
structure AcceptIo where
  findUserFail : Bool
  saveSelfFail : Bool
  areFriendsFail : Bool
  saveFriendshipFail : Bool
deriving DecidableEq, Repr

/-- `post_friend_request_accept` of src/src/resources/friend.rs: accepts a
pending friend request from the user named by the sanitized query. -/
def post_friend_request_accept (db : Db) (user : User) (qname : String)
    (now : Nat) (io : AcceptIo) : HResponse × Db :=
  let name := sanitizeUserName qname
  if io.findUserFail then
    (⟨500, "An error occurred while fetching user"⟩, db)
  else
    match find_user_by_name db.users name with
    | none => (⟨404, "User not found or no pending request from user"⟩, db)
    | some target =>
      if !(containsKey user.friend_requests target.key) then
        (⟨404, "User not found or no pending request from user"⟩, db)
      else
        let user1 : User :=
          { user with friend_requests := removeKey user.friend_requests target.key }
        if io.saveSelfFail then
          (⟨500, "An error occured while saving the user"⟩, db)
        else
          let db1 : Db := { db with users := upsertByKey db.users user1 }
          if io.areFriendsFail then
            (⟨500, "An error occured while trying to fetch friendship"⟩, db1)
          else if are_friends db1.friendships [user1.key, target.key] then
            (⟨400, "You are already friends with the user"⟩, db1)
          else
            let newFriendship := Friendship.new [user1.key, target.key] now
            if io.saveFriendshipFail then
              (⟨500, "An error occured while saving the friendship"⟩, db1)
            else
              (⟨200, "Friend request accepted"⟩,
                { db1 with friendships := saveFriendship db1.friendships newFriendship })

/-- The `UserSettings` struct as it stands in src/src/models/user_settings.rs
(an older two-boolean version; see `UserSettingsSpec` for the record the
rest of the code references). -/
structure UserSettings where
  join_date_public : Bool
  online_date_public : Bool
deriving DecidableEq, Repr

/-- `UserSettingsEdit` as used by `UserSettings::update` in
src/src/models/user_settings.rs: the sparse patch carries two optional
booleans, `show_join_date` and `show_online`. -/
structure UserSettingsEdit where
  show_join_date : Option Bool
  show_online : Option Bool
deriving DecidableEq, Repr

/-- `UserSettings::update` from src/src/models/user_settings.rs: each of
the two optional patch fields, when present, replaces the corresponding
boolean; `unwrap_or` keeps the current value otherwise. -/
def UserSettings.update (s : UserSettings) (data : UserSettingsEdit) : UserSettings :=
  { join_date_public := data.show_join_date.getD s.join_date_public
    online_date_public := data.show_online.getD s.online_date_public }

/-- `Default for UserSettings` from src/src/models/user_settings.rs. -/
def UserSettings.default : UserSettings :=
  { join_date_public := true, online_date_public := true }

/-! ### Concrete fixtures used by witnesses and counterexamples -/

/-- Concrete settings with every disclosure level at FriendsOnly and
friend requests allowed. -/
def wSettings : UserSettingsSpec :=
  ⟨DisclosureLevel.FriendsOnly, DisclosureLevel.FriendsOnly,
   DisclosureLevel.FriendsOnly, true⟩

/-- Concrete settings refusing friend requests. -/
def wSettingsNoReq : UserSettingsSpec :=
  ⟨DisclosureLevel.FriendsOnly, DisclosureLevel.FriendsOnly,
   DisclosureLevel.FriendsOnly, false⟩

/-- Builds a concrete user record for witnesses. -/
def mkUser (key name : String) (s : UserSettingsSpec)
    (fr : List (String × Nat)) : User :=
  { key := key, name := name, display_name := name, created_stamp := 10,
    last_access_stamp := 0, endpoint_usage := [], settings := s,
    permission_level := PermissionLevel.Regular, friend_requests := fr }

/-- Caller used in friend-handler witnesses. -/
def wAlice : User := mkUser "ka" "alice" wSettings []

/-- Target that accepts friend requests. -/
def wBob : User := mkUser "kb" "bob" wSettings []

/-- Target whose settings refuse friend requests. -/
def wCarl : User := mkUser "kc" "carl" wSettingsNoReq []

/-- Target already friends with `wAlice` in the fixture friendship below. -/
def wDave : User := mkUser "kd" "dave" wSettings []

/-- Target with a pending request from `wAlice` already recorded. -/
def wErin : User := mkUser "ke" "erin" wSettings [("ka", 1)]

/-- Caller with a pending request from `wAlice`, used in the accept witness. -/
def wBobPend : User := mkUser "kb" "bob" wSettings [("ka", 5)]

/-- Fixture friendship between `wAlice` and `wDave`. -/
def wFriendshipAD : Friendship := ⟨["ka", "kd"], 3⟩

/-- User looked up by API key `"k"` in authentication witnesses. -/
def wKeyUser : User := mkUser "k" "u" wSettings []

/-- User whose `created_stamp` is a realistic nanosecond timestamp, used to
exhibit the microsecond/nanosecond unit clash of the authenticator. -/
def wNanoUser : User :=
  { key := "k", name := "u", display_name := "U",
    created_stamp := 1700000000000000000, last_access_stamp := 0,
    endpoint_usage := [], settings := wSettings,
    permission_level := PermissionLevel.Regular, friend_requests := [] }

/-! ### Helper lemmas about the storage model -/

theorem find_user_by_key_upsert_self (users : List User) (u : User) :
    find_user_by_key (upsertByKey users u) u.key = some u := by
  induction users with
  | nil => simp [upsertByKey, find_user_by_key]
  | cons v vs ih =>
    unfold upsertByKey
    cases hv : v.key == u.key with
    | true => simp [find_user_by_key, List.find?]
    | false =>
      simp only [find_user_by_key, List.find?] at ih ⊢
      simp [hv, ih]

theorem find_user_by_key_upsert_other (users : List User) (u : User) (k : String)
    (h : ¬ u.key = k) :
    find_user_by_key (upsertByKey users u) k = find_user_by_key users k := by
  have hu : (u.key == k) = false := beq_eq_false_iff_ne.mpr h
  induction users with
  | nil => simp [upsertByKey, find_user_by_key, List.find?, hu]
  | cons v vs ih =>
    unfold upsertByKey
    cases hv : v.key == u.key with
    | true =>
      have hv' : v.key = u.key := by simpa using hv
      have hvk : (v.key == k) = false := by
        rw [hv']; exact hu
      simp only [find_user_by_key, List.find?]
      rw [hu, hvk]
    | false =>
      simp only [find_user_by_key, List.find?] at ih ⊢
      cases hvk : v.key == k with
      | true => rfl
      | false => exact ih

theorem containsKey_removeKey (m : List (String × Nat)) (k : String) :
    containsKey (removeKey m k) k = false := by
  rw [Bool.eq_false_iff]
  intro hc
  simp only [containsKey, List.any_eq_true] at hc
  obtain ⟨p, hp, hpk⟩ := hc
  simp only [removeKey] at hp
  have h1 : (p.1 != k) = true := (List.mem_filter.mp hp).2
  have h2 : p.1 = k := by simpa using hpk
  simp [h2] at h1

theorem sameKeySet_dedup (l : List String) : sameKeySet l.dedup l = true := by
  simp only [sameKeySet, Bool.and_eq_true, List.all_eq_true]
  constructor
  · intro k hk
    simpa [List.contains] using (List.mem_dedup.mp hk)
  · intro k hk
    simpa [List.contains] using (List.mem_dedup.mpr hk)

theorem are_friends_saveFriendship (gs : List Friendship) (f : Friendship)
    (keys : List String) (h : sameKeySet f.members keys = true) :
    are_friends (saveFriendship gs f) keys = true := by
  induction gs with
  | nil => simp [saveFriendship, are_friends, h]
  | cons g gs ih =>
    unfold saveFriendship
    cases hg : sameKeySet g.members f.members with
    | true => simp [are_friends, h]
    | false =>
      simp only [are_friends, List.any_cons] at ih ⊢
      simp [ih]

/-! ### Claim theorems -/

/-- C6: for every user `u` and boolean `is_friend`,
`u.public_information(is_friend)` contains `joined_date` exactly when
`u.settings.show_join_date` is visible to the viewer and `last_online_date`
exactly when `u.settings.show_online_date` is visible (Private → false,
FriendsOnly → `is_friend`, Public → true); in particular with
`show_online_date = FriendsOnly`, `last_online_date` is `Some` iff
`is_friend`. -/
theorem public_information_disclosure_gating :
    (∀ (u : User) (f : Bool),
      (u.public_information f).joined_date.isSome = u.settings.show_join_date.is_visible f) ∧
    (∀ (u : User) (f : Bool),
      (u.public_information f).last_online_date.isSome = u.settings.show_online_date.is_visible f) ∧
    (∀ (u : User) (f : Bool),
      u.settings.show_online_date = DisclosureLevel.FriendsOnly →
      (u.public_information f).last_online_date.isSome = f) := by
  refine ⟨?_, ?_, ?_⟩
  · intro u f
    cases hc : u.settings.show_join_date.is_visible f <;>
      simp [User.public_information, hc]
  · intro u f
    cases hc : u.settings.show_online_date.is_visible f <;>
      simp [User.public_information, hc]
  · intro u f h
    cases f <;> simp [User.public_information, h, DisclosureLevel.is_visible]

/-- Witness for C6 at a concrete user with `show_online_date = FriendsOnly`:
a friend viewer sees the last-online date. -/
theorem public_information_disclosure_gating_witness :
    (wAlice.public_information true).last_online_date.isSome = true :=
  public_information_disclosure_gating.2.2 wAlice true rfl

/-- C7: the `Default` impl of the `UserSettings` struct as committed in
src/src/models/user_settings.rs produces the two-boolean record
`{join_date_public = true, online_date_public = true}`; that struct carries
no disclosure levels and no `allow_friend_requests` field, so the claimed
default (all disclosure levels FriendsOnly, `allow_friend_requests = true`)
does not hold of it. -/
theorem user_settings_default_src :
    UserSettings.default =
      { join_date_public := true, online_date_public := true } := rfl

/-- C8: `UserSettings::update` as committed in
src/src/models/user_settings.rs evaluated on concrete patches — it patches
only the two booleans `join_date_public` (from patch field
`show_join_date`) and `online_date_public` (from patch field
`show_online`), keeping absent fields; there are no
`show_profile`/`allow_friend_requests` fields to patch. -/
theorem user_settings_update_src :
    UserSettings.update ⟨true, true⟩ ⟨some false, none⟩ = ⟨false, true⟩ ∧
    UserSettings.update ⟨true, true⟩ ⟨none, some false⟩ = ⟨true, false⟩ ∧
    UserSettings.update ⟨false, false⟩ ⟨none, none⟩ = ⟨false, false⟩ ∧
    UserSettings.update ⟨false, true⟩ ⟨some true, some false⟩ = ⟨true, false⟩ :=
  ⟨rfl, rfl, rfl, rfl⟩

/-- C10: neither projection exposes the secret `key` or the raw settings:
both projections are invariant under changing `key`; the private view is
invariant under changing the whole settings record; the public view is
invariant under changing the settings fields it does not gate on
(`show_profile`, `allow_friend_requests`). The projection records
themselves carry only name, display name, permission level, the gated
dates, and (privately) the total request count. -/
theorem projections_hide_key_and_settings :
    (∀ (u : User) (k : String) (f : Bool),
      ({ u with key := k } : User).public_information f = u.public_information f) ∧
    (∀ (u : User) (k : String),
      ({ u with key := k } : User).private_information = u.private_information) ∧
    (∀ (u : User) (s : UserSettingsSpec),
      ({ u with settings := s } : User).private_information = u.private_information) ∧
    (∀ (u : User) (p : DisclosureLevel) (b f : Bool),
      ({ u with settings :=
          { u.settings with show_profile := p,
                            allow_friend_requests := b } } : User).public_information f
        = u.public_information f) := by
  refine ⟨?_, ?_, ?_, ?_⟩ <;> intros <;> rfl

/-- C1: the authentication extractor rejects with 400 when the `x-api-key`
header is absent, with 400 when its value is not valid (visible) ASCII,
with 401 when no user record has that key, and with 500 on a storage
failure during lookup or save; when it succeeds it sets the caller's
`last_access_stamp` to the extractor's clock reading, persists the updated
user into the collection before any handler runs, and yields that loaded
user. -/
theorem auth_extractor_contract :
    (∀ (users : List User) (lf sf : Bool) (now : Nat),
      from_request_parts none users lf sf now =
        .error (400, "API key header is missing")) ∧
    (∀ (bs : List Nat) (users : List User) (lf sf : Bool) (now : Nat),
      bs.all isVisibleAscii = false →
      from_request_parts (some bs) users lf sf now =
        .error (400, "Invalid API key format")) ∧
    (∀ (bs : List Nat) (s : String) (users : List User) (sf : Bool) (now : Nat),
      headerValueToStr bs = some s →
      from_request_parts (some bs) users true sf now =
        .error (500, "An error occured while trying to fetch user")) ∧
    (∀ (bs : List Nat) (s : String) (users : List User) (now : Nat),
      headerValueToStr bs = some s →
      find_user_by_key users s = none →
      from_request_parts (some bs) users false false now =
        .error (401, "Invalid API key")) ∧
    (∀ (bs : List Nat) (s : String) (u : User) (users : List User) (now : Nat),
      headerValueToStr bs = some s →
      find_user_by_key users s = some u →
      from_request_parts (some bs) users false true now =
        .error (500, "An error occured while trying to save user")) ∧
    (∀ (bs : List Nat) (s : String) (u : User) (users : List User) (now : Nat),
      headerValueToStr bs = some s →
      find_user_by_key users s = some u →
      from_request_parts (some bs) users false false now =
        .ok ({ u with last_access_stamp := timestamp_now_micro now },
             upsertByKey users { u with last_access_stamp := timestamp_now_micro now })) := by
  refine ⟨?_, ?_, ?_, ?_, ?_, ?_⟩
  · intro users lf sf now
    rfl
  · intro bs users lf sf now h
    simp [from_request_parts, headerValueToStr, h]
  · intro bs s users sf now h
    simp [from_request_parts, h]
  · intro bs s users now h hfind
    simp [from_request_parts, h, hfind]
  · intro bs s u users now h hfind
    simp [from_request_parts, h, hfind]
  · intro bs s u users now h hfind
    simp [from_request_parts, h, hfind]

/-- Witness for C1: each clause of the extractor contract exercised at a
concrete request against the collection `[wKeyUser]` (API key "k"). -/
theorem auth_extractor_contract_witness :
    from_request_parts none [wKeyUser] false false 5 =
      .error (400, "API key header is missing") ∧
    from_request_parts (some [200]) [wKeyUser] false false 5 =
      .error (400, "Invalid API key format") ∧
    from_request_parts (some [107]) [wKeyUser] true false 5 =
      .error (500, "An error occured while trying to fetch user") ∧
    from_request_parts (some [120]) [wKeyUser] false false 5 =
      .error (401, "Invalid API key") ∧
    from_request_parts (some [107]) [wKeyUser] false true 5 =
      .error (500, "An error occured while trying to save user") ∧
    from_request_parts (some [107]) [wKeyUser] false false 5 =
      .ok ({ wKeyUser with last_access_stamp := timestamp_now_micro 5 },
           upsertByKey [wKeyUser] { wKeyUser with last_access_stamp := timestamp_now_micro 5 }) :=
  ⟨auth_extractor_contract.1 [wKeyUser] false false 5,
   auth_extractor_contract.2.1 [200] [wKeyUser] false false 5 (by decide),
   auth_extractor_contract.2.2.1 [107] "k" [wKeyUser] false 5 (by decide),
   auth_extractor_contract.2.2.2.1 [120] "x" [wKeyUser] 5 (by decide) (by decide),
   auth_extractor_contract.2.2.2.2.1 [107] "k" wKeyUser [wKeyUser] 5 (by decide) (by decide),
   auth_extractor_contract.2.2.2.2.2 [107] "k" wKeyUser [wKeyUser] 5 (by decide) (by decide)⟩

/-- C2 (failing input): authenticating `wNanoUser` — created at nanosecond
stamp 1700000000000000000 — at the strictly later instant
now = 1700000001000000000 nanoseconds succeeds, yet the authenticator
stores the microsecond clock reading 1700000001000000, so the yielded user
has `last_access_stamp < created_stamp`: invariant I5 fails on the code
because `authentication.rs` calls `timestamp_now_micro` while
`created_stamp` is in nanoseconds. -/
theorem auth_micro_stamp_violates_invariant :
    from_request_parts (some [107]) [wNanoUser] false false 1700000001000000000 =
      .ok ({ wNanoUser with last_access_stamp := 1700000001000000 },
           [{ wNanoUser with last_access_stamp := 1700000001000000 }]) ∧
    wNanoUser.created_stamp ≤ timestamp_now_nanos 1700000001000000000 ∧
    ({ wNanoUser with last_access_stamp := 1700000001000000 } : User).last_access_stamp <
      ({ wNanoUser with last_access_stamp := 1700000001000000 } : User).created_stamp := by
  refine ⟨rfl, by decide, by decide⟩

/-- C3: when the target resolves by name, the caller holds a pending
request from the target's key, and the pair is not already friends, the
accept handler (all storage operations succeeding) returns
200 "Friend request accepted", persists the caller with the request
removed, and saves a friendship of the pair: afterwards `are_friends`
holds for the pair and the pending request is gone. -/
theorem accept_success_path (db : Db) (user target : User) (qname : String) (now : Nat)
    (hfind : find_user_by_name db.users (sanitizeUserName qname) = some target)
    (hpend : containsKey user.friend_requests target.key = true)
    (hnf : are_friends db.friendships [user.key, target.key] = false) :
    (post_friend_request_accept db user qname now ⟨false, false, false, false⟩).1 =
      ⟨200, "Friend request accepted"⟩ ∧
    are_friends
      (post_friend_request_accept db user qname now ⟨false, false, false, false⟩).2.friendships
      [user.key, target.key] = true ∧
    find_user_by_key
      (post_friend_request_accept db user qname now ⟨false, false, false, false⟩).2.users
      user.key =
      some { user with friend_requests := removeKey user.friend_requests target.key } ∧
    containsKey (removeKey user.friend_requests target.key) target.key = false := by
  have hstep : post_friend_request_accept db user qname now ⟨false, false, false, false⟩ =
      (⟨200, "Friend request accepted"⟩,
        { users := upsertByKey db.users
            { user with friend_requests := removeKey user.friend_requests target.key },
          friendships := saveFriendship db.friendships
            (Friendship.new [user.key, target.key] now) }) := by
    simp only [post_friend_request_accept]
    rw [hfind]
    simp [hpend, hnf]
  refine ⟨by rw [hstep], ?_, ?_, containsKey_removeKey _ _⟩
  · rw [hstep]
    exact are_friends_saveFriendship _ _ _ (sameKeySet_dedup [user.key, target.key])
  · rw [hstep]
    exact find_user_by_key_upsert_self db.users _

/-- Witness for C3: `wBobPend` (pending request from `wAlice`) accepts
`wAlice`'s request against the collection `[wAlice]`. -/
theorem accept_success_path_witness :
    (post_friend_request_accept ⟨[wAlice], []⟩ wBobPend "alice" 7 ⟨false, false, false, false⟩).1 =
      ⟨200, "Friend request accepted"⟩ ∧
    are_friends
      (post_friend_request_accept ⟨[wAlice], []⟩ wBobPend "alice" 7 ⟨false, false, false, false⟩).2.friendships
      [wBobPend.key, wAlice.key] = true ∧
    find_user_by_key
      (post_friend_request_accept ⟨[wAlice], []⟩ wBobPend "alice" 7 ⟨false, false, false, false⟩).2.users
      wBobPend.key =
      some { wBobPend with friend_requests := removeKey wBobPend.friend_requests wAlice.key } ∧
    containsKey (removeKey wBobPend.friend_requests wAlice.key) wAlice.key = false :=
  accept_success_path ⟨[wAlice], []⟩ wBobPend wAlice "alice" 7 (by decide) (by decide) rfl

/-- C4 counterexample: at a concrete request whose target does not exist,
the handler answers 404 with the body
"User not found or user does not allow friend requests", which is not the
claim's quoted body "User not found or does not allow friend requests". -/
theorem send_request_message_counterexample :
    (post_friend_request ⟨[], []⟩ wAlice "bob" 0 ⟨false, false, false⟩).1 =
      ⟨404, "User not found or user does not allow friend requests"⟩ ∧
    ("User not found or user does not allow friend requests" : String) ≠
      "User not found or does not allow friend requests" :=
  ⟨rfl, by decide⟩

/-- C4 (amended): the two failure cases — the target does not exist, and
the target's settings refuse friend requests — both answer HTTP 404 with
the exact same body "User not found or user does not allow friend
requests", so the two cases are indistinguishable to the caller. -/
theorem send_request_not_found_indistinguishable :
    (∀ (db : Db) (user : User) (qname : String) (now : Nat) (io : SendIo),
      io.findUserFail = false →
      find_user_by_name db.users (sanitizeUserName qname) = none →
      (post_friend_request db user qname now io).1 =
        ⟨404, "User not found or user does not allow friend requests"⟩) ∧
    (∀ (db : Db) (user target : User) (qname : String) (now : Nat) (io : SendIo),
      io.findUserFail = false →
      find_user_by_name db.users (sanitizeUserName qname) = some target →
      target.key ≠ user.key →
      target.settings.allow_friend_requests = false →
      (post_friend_request db user qname now io).1 =
        ⟨404, "User not found or user does not allow friend requests"⟩) := by
  constructor
  · intro db user qname now io hio hfind
    simp [post_friend_request, hio, hfind]
  · intro db user target qname now io hio hfind hkey hallow
    have hk : (target.key == user.key) = false := beq_eq_false_iff_ne.mpr hkey
    simp [post_friend_request, hio, hfind, hk, hallow]

/-- Witness for C4 (amended): a request for an unknown handle and a request
to `wCarl`, whose settings refuse friend requests, both answer the same
404 response. -/
theorem send_request_not_found_indistinguishable_witness :
    (post_friend_request ⟨[], []⟩ wAlice "bob" 0 ⟨false, false, false⟩).1 =
      ⟨404, "User not found or user does not allow friend requests"⟩ ∧
    (post_friend_request ⟨[wCarl], []⟩ wAlice "carl" 0 ⟨false, false, false⟩).1 =
      ⟨404, "User not found or user does not allow friend requests"⟩ :=
  ⟨send_request_not_found_indistinguishable.1 ⟨[], []⟩ wAlice "bob" 0
      ⟨false, false, false⟩ rfl (by decide),
   send_request_not_found_indistinguishable.2 ⟨[wCarl], []⟩ wAlice wCarl "carl" 0
      ⟨false, false, false⟩ rfl (by decide) (by decide) (by decide)⟩

/-- C5: the send handler decides its checks in order — target resolution,
self-request, allow_friend_requests, already-friends, duplicate pending
request: a self-request answers 400 "Can\x27t send a friend request to
yourself" regardless of every later check; a target refusing requests
answers 404 regardless of friendship state or duplicates; an existing
friendship answers 400 "You are already friends with the user" before the
duplicate check is consulted; only then does a duplicate pending request
answer 400 "Already sent a request to the user". -/
theorem send_request_check_order :
    (∀ (db : Db) (user target : User) (qname : String) (now : Nat) (io : SendIo),
      io.findUserFail = false →
      find_user_by_name db.users (sanitizeUserName qname) = some target →
      target.key = user.key →
      (post_friend_request db user qname now io).1 =
        ⟨400, "Can\x27t send a friend request to yourself"⟩) ∧
    (∀ (db : Db) (user target : User) (qname : String) (now : Nat) (io : SendIo),
      io.findUserFail = false →
      find_user_by_name db.users (sanitizeUserName qname) = some target →
      target.key ≠ user.key →
      target.settings.allow_friend_requests = false →
      (post_friend_request db user qname now io).1 =
        ⟨404, "User not found or user does not allow friend requests"⟩) ∧
    (∀ (db : Db) (user target : User) (qname : String) (now : Nat) (io : SendIo),
      io.findUserFail = false →
      io.areFriendsFail = false →
      find_user_by_name db.users (sanitizeUserName qname) = some target →
      target.key ≠ user.key →
      target.settings.allow_friend_requests = true →
      are_friends db.friendships [user.key, target.key] = true →
      (post_friend_request db user qname now io).1 =
        ⟨400, "You are already friends with the user"⟩) ∧
    (∀ (db : Db) (user target : User) (qname : String) (now : Nat) (io : SendIo),
      io.findUserFail = false →
      io.areFriendsFail = false →
      find_user_by_name db.users (sanitizeUserName qname) = some target →
      target.key ≠ user.key →
      target.settings.allow_friend_requests = true →
      are_friends db.friendships [user.key, target.key] = false →
      containsKey target.friend_requests user.key = true →
      (post_friend_request db user qname now io).1 =
        ⟨400, "Already sent a request to the user"⟩) := by
  refine ⟨?_, ?_, ?_, ?_⟩
  · intro db user target qname now io hio hfind hkey
    have hk : (target.key == user.key) = true := beq_iff_eq.mpr hkey
    simp [post_friend_request, hio, hfind, hk]
  · intro db user target qname now io hio hfind hkey hallow
    have hk : (target.key == user.key) = false := beq_eq_false_iff_ne.mpr hkey
    simp [post_friend_request, hio, hfind, hk, hallow]
  · intro db user target qname now io hio hiof hfind hkey hallow hfr
    have hk : (target.key == user.key) = false := beq_eq_false_iff_ne.mpr hkey
    simp [post_friend_request, hio, hiof, hfind, hk, hallow, hfr]
  · intro db user target qname now io hio hiof hfind hkey hallow hfr hdup
    have hk : (target.key == user.key) = false := beq_eq_false_iff_ne.mpr hkey
    simp [post_friend_request, hio, hiof, hfind, hk, hallow, hfr, hdup]

/-- Witness for C5: the four ordered outcomes at concrete requests —
`wAlice` targeting herself, targeting `wCarl` (refuses requests),
targeting `wDave` (already a friend), and targeting `wErin` (pending
request already recorded). -/
theorem send_request_check_order_witness :
    (post_friend_request ⟨[wAlice], []⟩ wAlice "alice" 3 ⟨false, false, false⟩).1 =
      ⟨400, "Can\x27t send a friend request to yourself"⟩ ∧
    (post_friend_request ⟨[wCarl], []⟩ wAlice "carl" 3 ⟨false, false, false⟩).1 =
      ⟨404, "User not found or user does not allow friend requests"⟩ ∧
    (post_friend_request ⟨[wDave], [wFriendshipAD]⟩ wAlice "dave" 3 ⟨false, false, false⟩).1 =
      ⟨400, "You are already friends with the user"⟩ ∧
    (post_friend_request ⟨[wErin], []⟩ wAlice "erin" 3 ⟨false, false, false⟩).1 =
      ⟨400, "Already sent a request to the user"⟩ :=
  ⟨send_request_check_order.1 ⟨[wAlice], []⟩ wAlice wAlice "alice" 3
      ⟨false, false, false⟩ rfl (by decide) rfl,
   send_request_check_order.2.1 ⟨[wCarl], []⟩ wAlice wCarl "carl" 3
      ⟨false, false, false⟩ rfl (by decide) (by decide) (by decide),
   send_request_check_order.2.2.1 ⟨[wDave], [wFriendshipAD]⟩ wAlice wDave "dave" 3
      ⟨false, false, false⟩ rfl rfl (by decide) (by decide) (by decide) (by decide),
   send_request_check_order.2.2.2 ⟨[wErin], []⟩ wAlice wErin "erin" 3
      ⟨false, false, false⟩ rfl rfl (by decide) (by decide) (by decide) rfl (by decide)⟩

/-- In every outcome, the send handler either leaves the database unchanged
or upserts exactly the resolved target (whose key differs from the
caller's) with the new pending entry. -/
theorem send_request_db_cases (db : Db) (user : User) (qname : String) (now : Nat)
    (io : SendIo) :
    (post_friend_request db user qname now io).2 = db ∨
    ∃ target, find_user_by_name db.users (sanitizeUserName qname) = some target ∧
      target.key ≠ user.key ∧
      (post_friend_request db user qname now io).2 =
        { db with users := upsertByKey db.users { target with friend_requests := insertKV target.friend_requests user.key (timestamp_now_nanos now) } } := by
  simp only [post_friend_request]
  split
  · exact Or.inl rfl
  split
  · exact Or.inl rfl
  next target heq =>
    split
    · exact Or.inl rfl
    next hkey =>
      split
      · exact Or.inl rfl
      split
      · exact Or.inl rfl
      split
      · exact Or.inl rfl
      split
      · exact Or.inl rfl
      split
      · exact Or.inl rfl
      · exact Or.inr ⟨target, heq, by simpa using hkey, rfl⟩

/-- C9: the send handler never modifies or persists the caller's own
stored record: in every outcome the friendship collection is unchanged,
looking the caller up by key yields the same stored record as before (so
the caller's friend_requests map is unchanged), and the user collection is
either untouched or updated only at the resolved target's distinct key. -/
theorem send_request_caller_frame (db : Db) (user : User) (qname : String) (now : Nat)
    (io : SendIo) :
    (post_friend_request db user qname now io).2.friendships = db.friendships ∧
    find_user_by_key (post_friend_request db user qname now io).2.users user.key =
      find_user_by_key db.users user.key ∧
    ((post_friend_request db user qname now io).2.users = db.users ∨
      ∃ target, find_user_by_name db.users (sanitizeUserName qname) = some target ∧
        target.key ≠ user.key ∧
        (post_friend_request db user qname now io).2.users =
          upsertByKey db.users { target with friend_requests := insertKV target.friend_requests user.key (timestamp_now_nanos now) }) := by
  rcases send_request_db_cases db user qname now io with h | ⟨target, hfind, hne, h⟩
  · rw [h]
    exact ⟨rfl, rfl, Or.inl rfl⟩
  · rw [h]
    refine ⟨rfl, ?_, Or.inr ⟨target, hfind, hne, rfl⟩⟩
    exact find_user_by_key_upsert_other db.users _ user.key hne
